import Mathlib

/-!
Shallow embedding of the control core of the Chiller-Controller repository
(src/state.py, src/controller.py) and proofs about the frozen specification
claims. Temperatures and timestamps are modelled as rationals; Python's
`None` override sentinel is `Option Ov` with `none` = auto; sensor maps are
association lists mirroring Python dict semantics (insertion-ordered,
key-overwriting); a raised exception is `Except.error`.
-/

namespace Chiller

/-- Manual override value once parsed: "on" or "off"; Python `None` (auto)
is represented by `Option Ov = none`. -/
inductive Ov where
  | on : Ov
  | off : Ov
deriving DecidableEq, Repr

/-- One raw value of a submitted sensor batch entry: a finite number, a
float NaN, or any non-numeric Python value. Mirrors the validity test at
state.py:342 `isinstance(val, (int, float)) and not math.isnan(val)`. -/
inductive Reading where
  | num : ℚ → Reading
  | nan : Reading
  | other : Reading
deriving DecidableEq, Repr

/-- Validity of a batch entry, state.py:342. -/
def Reading.isNum : Reading → Bool
  | .num _ => true
  | _ => false

/-- Association-list lookup mirroring Python `dict.get(key, default)` for a
Bool-valued dict with default `False` (state.py:352, 359, 373). -/
def lookupB (m : List (String × Bool)) (k : String) : Bool :=
  match m.find? (fun kv => kv.1 = k) with
  | some kv => kv.2
  | none => false

/-- Association-list lookup mirroring Python `dict.get(key)` returning
`None` when absent (state.py:375). -/
def lookupQ (m : List (String × ℚ)) (k : String) : Option ℚ :=
  match m.find? (fun kv => kv.1 = k) with
  | some kv => some kv.2
  | none => none

/-- Association-list store mirroring Python `d[key] = v` (overwrite in
place if the key exists, else append preserving insertion order). -/
def store {α : Type} (m : List (String × α)) (k : String) (v : α) :
    List (String × α) :=
  match m with
  | [] => [(k, v)]
  | kv :: rest =>
      if kv.1 = k then (k, v) :: rest else kv :: store rest k v

/-- Configuration constants read from config.py by the control core. -/
structure Config where
  condenser_min_off_time_sec : ℚ
  ahu_call_timeout_sec : ℚ
  pump_post_purge_duration_sec : ℚ
  ambient_lockout_deadband_f : ℚ
  ambient_lockout_debounce_duration_sec : ℚ
  critical_sensor_keys : List String
  sensor_ids_keys : List String
deriving DecidableEq, Repr

/-! ## Control Decision Engine (src/controller.py, control_loop body) -/

/-- Per-tick snapshot of everything the decision engine reads from the
shared state: `now` (controller.py:116), the two overrides
(controller.py:125-126), the pump demand returned by
`check_for_call_timeout` (controller.py:137), the critical-sensor fault
flag (controller.py:178), the supply temperature (controller.py:129,
`None` when invalid), setpoint and differential (controller.py:185-186),
and the ambient-lockout flag maintained by state.py.  The lockout flag is
included because it is part of the shared state snapshot the claims talk
about; control_loop itself never reads it. -/
structure TickParams where
  now : ℚ
  pumpOverride : Option Ov
  condenserOverride : Option Ov
  demand : Bool
  criticalFault : Bool
  supplyTemp : Option ℚ
  setpoint : ℚ
  differential : ℚ
  ambientLockoutActive : Bool
deriving DecidableEq, Repr

/-- Pump decision, controller.py:139-156: manual override wins, else auto
mode follows the demand tracker. -/
def pumpDecision (p : TickParams) : Bool :=
  match p.pumpOverride with
  | some .on => true
  | some .off => false
  | none => p.demand

/-- Condenser decision, controller.py:165-212.  `pumpOn` is the pump
decision computed in the same tick (controller.py:168), `cachedCond` the
last commanded condenser state (controller.py:166), `lastOff` the cached
`condenser_last_off_time`. -/
def condenserDecision (minOff : ℚ) (p : TickParams) (pumpOn : Bool)
    (cachedCond : Bool) (lastOff : ℚ) : Bool :=
  if !pumpOn then false
  else
    match p.condenserOverride with
    | some .on => true
    | some .off => false
    | none =>
        if p.criticalFault then false
        else
          match p.supplyTemp with
          | none => false
          | some t =>
              let turn_on_threshold := p.setpoint + p.differential
              let turn_off_threshold := p.setpoint
              if cachedCond then
                if t ≤ turn_off_threshold then false else true
              else
                if t ≥ turn_on_threshold then
                  if p.now - lastOff ≥ minOff then true else false
                else false

/-- Engine-owned persistent state across ticks: the relay command cache
(state.py:65-68) and the condenser last-off timestamp (state.py:44),
updated through `set_relay_state` (state.py:456-474). -/
structure CtrlState where
  pumpCached : Bool
  condCached : Bool
  lastOff : ℚ
deriving DecidableEq, Repr

/-- One control-loop iteration's effect on the engine-owned state,
controller.py:139-230: compute both decisions, then apply them through
`set_relay_state`, which records `condenser_last_off_time` exactly on a
commanded On-to-Off condenser transition (state.py:471-474).  The source
samples `time.time()` a second time inside `set_relay_state`; this
embedding uses the tick's `now` for that timestamp. -/
def engineTick (minOff : ℚ) (p : TickParams) (c : CtrlState) : CtrlState :=
  let pd := pumpDecision p
  let cd := condenserDecision minOff p pd c.condCached c.lastOff
  { pumpCached := pd
    condCached := cd
    lastOff := if c.condCached && !cd then p.now else c.lastOff }

/-- Iterated runs of the engine over an infinite input trace `f`. -/
def engineRun (minOff : ℚ) (f : ℕ → TickParams) (c0 : CtrlState) :
    ℕ → CtrlState
  | 0 => c0
  | n + 1 => engineTick minOff (f n) (engineRun minOff f c0 n)

/-! ## Ambient Lockout Sub-State-Machine (state.py:384-447) -/

/-- Lockout sub-state: the active flag and the two debounce timestamps.
The source uses the Unix timestamp `0` as the null sentinel for both
timers (state.py:55-56), kept here verbatim. -/
structure LockSub where
  active : Bool
  belowSince : ℚ
  aboveSince : ℚ
deriving DecidableEq, Repr

/-- One evaluation of `update_ambient_lockout_status` (state.py:384-447)
on the lockout sub-state, given `now`, the current ambient reading
(`none` when the ambient sensor is invalid or absent), the lockout
setpoint (state field), and the deadband/debounce constants.  An
unavailable reading forces the flag off and resets both timers
(state.py:396-403); a below-setpoint reading runs the entry debounce
(state.py:415-422); an above-release reading runs the exit debounce
(state.py:425-432); a deadband reading resets both timers and keeps the
flag (state.py:435-439). -/
def lockoutStep (lockSet deadband debounce : ℚ) (L : LockSub) (now : ℚ)
    (ambient : Option ℚ) : LockSub :=
  match ambient with
  | none => { active := false, belowSince := 0, aboveSince := 0 }
  | some t =>
      let release_target := lockSet + deadband
      if t < lockSet then
        let below := if L.belowSince = 0 then now else L.belowSince
        { active := if now - below ≥ debounce then true else L.active
          belowSince := below
          aboveSince := 0 }
      else if t > release_target then
        let above := if L.aboveSince = 0 then now else L.aboveSince
        { active := if now - above ≥ debounce then false else L.active
          belowSince := 0
          aboveSince := above }
      else
        { active := L.active, belowSince := 0, aboveSince := 0 }

/-- Iterated lockout evaluations over an infinite trace of observation
times and ambient readings. -/
def lockoutRun (lockSet deadband debounce : ℚ) (nowF : ℕ → ℚ)
    (ambF : ℕ → Option ℚ) (L0 : LockSub) : ℕ → LockSub
  | 0 => L0
  | n + 1 =>
      lockoutStep lockSet deadband debounce
        (lockoutRun lockSet deadband debounce nowF ambF L0 n)
        (nowF n) (ambF n)

/-! ## Shared Control State (src/state.py, fields used by the claims) -/

/-- The fields of `SystemState` (state.py:26-92) that the claims exercise.
File-backed loads at construction are modelled by passing the loaded
values in explicitly. -/
structure SystemState where
  setpoint : ℚ
  differential : ℚ
  ambient_lockout_setpoint : ℚ
  manual_pump_override : Option Ov
  manual_chiller_override : Option Ov
  manual_cooling_override : Option Ov
  last_ahu_call_time : ℚ
  pump_post_purge_end_time : ℚ
  condenser_last_off_time : ℚ
  is_ahu_calling : Bool
  critical_sensor_fault : Bool
  ambient_lockout_active : Bool
  ambient_temp_below_lockout_setpoint_since : ℚ
  ambient_temp_above_lockout_release_since : ℚ
  sensor_temps : List (String × ℚ)
  sensor_readings_valid : List (String × Bool)
  relay_pump : Bool
  relay_condenser : Bool
deriving DecidableEq, Repr

/-- `get_sensor_temp` (state.py:372-375): `None` unless the validity flag
is set, else the stored temperature (also `None` if absent). -/
def get_sensor_temp (s : SystemState) (key : String) : Option ℚ :=
  if lookupB s.sensor_readings_valid key then lookupQ s.sensor_temps key
  else none

/-- View of the lockout sub-state inside the full state. -/
def lockSubOf (s : SystemState) : LockSub :=
  { active := s.ambient_lockout_active
    belowSince := s.ambient_temp_below_lockout_setpoint_since
    aboveSince := s.ambient_temp_above_lockout_release_since }

/-- `update_ambient_lockout_status` (state.py:384-447) on the full state:
read the ambient sensor through `get_sensor_temp` and apply the
sub-state-machine step. -/
def update_ambient_lockout_status (deadband debounce : ℚ)
    (s : SystemState) (now : ℚ) : SystemState :=
  let L := lockoutStep s.ambient_lockout_setpoint deadband debounce
    (lockSubOf s) now (get_sensor_temp s "ambient")
  { s with
    ambient_lockout_active := L.active
    ambient_temp_below_lockout_setpoint_since := L.belowSince
    ambient_temp_above_lockout_release_since := L.aboveSince }

/-! ## Demand / Post-Purge Tracker (state.py:309-333) -/

/-- One evaluation of `check_for_call_timeout` (state.py:309-333): decide
whether a call is currently signaled, manage the post-purge timer on a
signaled true-to-false transition, and return the overall pump demand.
The returned Bool is `overall_pump_demand` (state.py:326, 333). -/
def check_for_call_timeout (callTimeout purgeDur : ℚ) (s : SystemState)
    (now : ℚ) : SystemState × Bool :=
  let call_is_currently_signaled :=
    decide (now - s.last_ahu_call_time < callTimeout)
      || decide (s.manual_cooling_override = some .on)
  let s :=
    if s.is_ahu_calling ≠ call_is_currently_signaled then
      if call_is_currently_signaled then { s with is_ahu_calling := true }
      else
        { s with
          pump_post_purge_end_time := now + purgeDur
          is_ahu_calling := false }
    else s
  let pump_post_purging_active := decide (now < s.pump_post_purge_end_time)
  (s, s.is_ahu_calling || pump_post_purging_active)

/-! ## Sensor batch update (state.py:337-369) -/

/-- Accumulator of the batch loop at state.py:341-353: the evolving maps
and the `ambient_temp_updated` flag.  The loop's
`any_critical_sensor_invalid` variable is computed by the source but
never read afterwards, so it is omitted here. -/
def batchFoldStep (s : SystemState) (ambient_temp_updated : Bool)
    (kv : String × Reading) : SystemState × Bool :=
  let is_valid := kv.2.isNum
  let ambient_temp_updated :=
    ambient_temp_updated || (decide (kv.1 = "ambient") && is_valid)
  let s :=
    match kv.2 with
    | .num t =>
        { s with
          sensor_temps := store s.sensor_temps kv.1 t
          sensor_readings_valid := store s.sensor_readings_valid kv.1 true }
    | _ =>
        { s with
          sensor_readings_valid := store s.sensor_readings_valid kv.1 false }
  (s, ambient_temp_updated)

/-- The batch loop folded over the submitted dict items. -/
def batchFold (s : SystemState) (amb : Bool) :
    List (String × Reading) → SystemState × Bool
  | [] => (s, amb)
  | kv :: rest =>
      let next := batchFoldStep s amb kv
      batchFold next.1 next.2 rest

/-- `update_temperatures` (state.py:337-369).  Returns the updated state
together with a Bool recording whether `update_ambient_lockout_status`
was invoked as part of the update (the observation the spec speaks
about), or `Except.error` when the source raises.  With an empty critical
set the source skips the assignment of `new_fault_state` (state.py:355-356)
yet still evaluates it in the guard at state.py:368, so when
`ambient_temp_updated` is false the short-circuit fails and an
UnboundLocalError is raised.  In the non-empty branch the guard compares
the already-reassigned `critical_sensor_fault` with `new_fault_state`
(state.py:362-368), which are equal by then. -/
def update_temperatures (cfg : Config) (s : SystemState) (now : ℚ)
    (batch : List (String × Reading)) :
    Except String (SystemState × Bool) :=
  let folded := batchFold s false batch
  let s := folded.1
  let ambient_temp_updated := folded.2
  if cfg.critical_sensor_keys = [] then
    let s := { s with critical_sensor_fault := false }
    if ambient_temp_updated then
      Except.ok
        (update_ambient_lockout_status cfg.ambient_lockout_deadband_f
          cfg.ambient_lockout_debounce_duration_sec s now, true)
    else
      Except.error "UnboundLocalError: local variable referenced before assignment"
  else
    let critical_sensors_are_valid :=
      cfg.critical_sensor_keys.all (fun key => lookupB s.sensor_readings_valid key)
    let new_fault_state := !critical_sensors_are_valid
    let s :=
      if s.critical_sensor_fault ≠ new_fault_state then
        { s with critical_sensor_fault := new_fault_state }
      else s
    if ambient_temp_updated || decide (s.critical_sensor_fault ≠ new_fault_state) then
      Except.ok
        (update_ambient_lockout_status cfg.ambient_lockout_deadband_f
          cfg.ambient_lockout_debounce_duration_sec s now, true)
    else
      Except.ok (s, false)

/-! ## Override persistence (state.py:176-206, 261-280) -/

/-- Contents of the overrides.json document written by `save_overrides`
(state.py:195-206): all three override fields. -/
structure OverridesFile where
  manual_pump_override : Option Ov
  manual_chiller_override : Option Ov
  manual_cooling_override : Option Ov
deriving DecidableEq, Repr

/-- `save_overrides` (state.py:195-206): serialize all three overrides. -/
def save_overrides (s : SystemState) : OverridesFile :=
  { manual_pump_override := s.manual_pump_override
    manual_chiller_override := s.manual_chiller_override
    manual_cooling_override := s.manual_cooling_override }

/-- `load_overrides` (state.py:176-193): restore all three overrides from
the file into the state. -/
def load_overrides (f : OverridesFile) (s : SystemState) : SystemState :=
  { s with
    manual_pump_override := f.manual_pump_override
    manual_chiller_override := f.manual_chiller_override
    manual_cooling_override := f.manual_cooling_override }

/-- Python `str.strip()` over the character list (whitespace removed from
both ends). -/
def pyStrip (s : String) : String :=
  String.mk
    (((s.data.dropWhile Char.isWhitespace).reverse.dropWhile
        Char.isWhitespace).reverse)

/-- Python `str.lower()` over the character list (ASCII case mapping,
which covers the override vocabulary). -/
def pyLower (s : String) : String :=
  String.mk (s.data.map Char.toLower)

/-- Override value parsing at state.py:267-273: strip and lowercase, map
"on"/"off" to the sentinels, anything else to `None` (auto). -/
def parse_override_value (value : String) : Option Ov :=
  let val_lower := pyLower (pyStrip value)
  if val_lower = "on" then some .on
  else if val_lower = "off" then some .off
  else none

/-- `get_override` (state.py:283-286): `None` for unknown devices, else
the override field selected by the device name. -/
def get_override (s : SystemState) (device : String) : Option Ov :=
  if device ∉ ["pump", "chiller", "cooling"] then none
  else if device = "pump" then s.manual_pump_override
  else if device = "chiller" then s.manual_chiller_override
  else s.manual_cooling_override

/-- `set_override` (state.py:261-280): reject unknown devices, parse the
value, and when the parsed value differs from the current one, update the
field and synchronously save the overrides file.  The second component is
the file written, `none` when no save happened. -/
def set_override (s : SystemState) (device : String) (value : String) :
    SystemState × Option OverridesFile :=
  if device ∉ ["pump", "chiller", "cooling"] then (s, none)
  else
    let parsed_value := parse_override_value value
    let current_override :=
      if device = "pump" then s.manual_pump_override
      else if device = "chiller" then s.manual_chiller_override
      else s.manual_cooling_override
    if current_override ≠ parsed_value then
      let s :=
        if device = "pump" then { s with manual_pump_override := parsed_value }
        else if device = "chiller" then
          { s with manual_chiller_override := parsed_value }
        else { s with manual_cooling_override := parsed_value }
      (s, some (save_overrides s))
    else (s, none)

/-! ## Construction (state.py:27-92) -/

/-- `SystemState.__init__` (state.py:27-92) restricted to the fields the
claims exercise.  Loaded persisted values (setpoint, differential,
lockout setpoint, overrides) are passed in, mirroring the load calls at
state.py:71-73.  The critical-fault seeding mirrors state.py:75-85:
every configured sensor starts invalid, and the fault is true iff some
critical key is among the configured sensor ids (or no sensors are
configured at all). -/
def initState (cfg : Config) (setpoint differential lockoutSetpoint : ℚ)
    (ov : OverridesFile) (startTime : ℚ) : SystemState :=
  let base : SystemState :=
    { setpoint := setpoint
      differential := differential
      ambient_lockout_setpoint := lockoutSetpoint
      manual_pump_override := ov.manual_pump_override
      manual_chiller_override := ov.manual_chiller_override
      manual_cooling_override := ov.manual_cooling_override
      last_ahu_call_time := 0
      pump_post_purge_end_time := 0
      condenser_last_off_time := startTime
      is_ahu_calling := false
      critical_sensor_fault := true
      ambient_lockout_active := false
      ambient_temp_below_lockout_setpoint_since := 0
      ambient_temp_above_lockout_release_since := 0
      sensor_temps := []
      sensor_readings_valid := []
      relay_pump := false
      relay_condenser := false }
  if cfg.sensor_ids_keys = [] then base
  else
    let valid := cfg.sensor_ids_keys.map (fun k => (k, false))
    { base with
      sensor_readings_valid := valid
      critical_sensor_fault :=
        cfg.critical_sensor_keys.any (fun k => k ∈ cfg.sensor_ids_keys) }

/-! ## Concrete instances used by witnesses and counterexamples -/

/-- Default-flavoured configuration (config.py defaults): minimum off
time 120 s, call timeout 300 s, purge 60 s, deadband 5 °F, debounce 60 s,
critical sensor "supply", configured sensors "supply" and "ambient". -/
def exCfg : Config :=
  { condenser_min_off_time_sec := 120
    ahu_call_timeout_sec := 300
    pump_post_purge_duration_sec := 60
    ambient_lockout_deadband_f := 5
    ambient_lockout_debounce_duration_sec := 60
    critical_sensor_keys := ["supply"]
    sensor_ids_keys := ["supply", "ambient"] }

/-- Same configuration but with an empty critical-sensor set. -/
def exCfgEmptyCritical : Config :=
  { exCfg with critical_sensor_keys := [] }

/-- Configuration with two critical sensors. -/
def exCfgTwoCritical : Config :=
  { exCfg with
    critical_sensor_keys := ["supply", "outlet"]
    sensor_ids_keys := ["supply", "outlet", "ambient"] }

/-- A freshly constructed state under `exCfg` with no persisted overrides
(setpoint 45 °F, differential 3 °F, lockout setpoint 50 °F, started at
time 0). -/
def exInit : SystemState :=
  initState exCfg 45 3 50
    { manual_pump_override := none
      manual_chiller_override := none
      manual_cooling_override := none } 0

/-- A freshly constructed state under `exCfgTwoCritical`. -/
def exInitTwo : SystemState :=
  initState exCfgTwoCritical 45 3 50
    { manual_pump_override := none
      manual_chiller_override := none
      manual_cooling_override := none } 0

/-- State after submitting a batch validating only the "supply" critical
sensor to `exInitTwo` (the other critical key "outlet" stays invalid). -/
def exAfterSupplyOnly : SystemState :=
  (((update_temperatures exCfgTwoCritical exInitTwo 10
      [("supply", .num 44)]).toOption.map Prod.fst).getD exInitTwo)

/-- Tick input that drops the condenser: auto everywhere, no demand. -/
def exTickDrop : TickParams :=
  { now := 0
    pumpOverride := none
    condenserOverride := none
    demand := false
    criticalFault := false
    supplyTemp := some 50
    setpoint := 45
    differential := 3
    ambientLockoutActive := false }

/-- Tick input with demand and a supply temperature above the On
threshold, arriving exactly at the minimum-off boundary. -/
def exTickRaise : TickParams :=
  { now := 120
    pumpOverride := none
    condenserOverride := none
    demand := true
    criticalFault := false
    supplyTemp := some 50
    setpoint := 45
    differential := 3
    ambientLockoutActive := false }

/-- Two-tick input trace: a dropping tick, then a raising one. -/
def exEngineTrace : ℕ → TickParams :=
  fun n => if n = 0 then exTickDrop else exTickRaise

/-- Engine cache with the condenser commanded On. -/
def exCtrl0 : CtrlState :=
  { pumpCached := true, condCached := true, lastOff := 0 }

/-- Observation times for the lockout counterexample trace. -/
def exLockNow : ℕ → ℚ :=
  fun n => if n = 0 then 10 else if n = 1 then 70 else if n = 2 then 80 else 1000

/-- Ambient readings for the lockout counterexample trace: twice 40 °F
(below the 50 °F lockout setpoint), then an unavailable reading. -/
def exLockAmb : ℕ → Option ℚ :=
  fun n => if n = 0 then some 40 else if n = 1 then some 40
    else if n = 2 then none else some 60

/-- Sensor batch carrying a valid "supply" reading and an invalid
(NaN) "ambient" reading. -/
def exBatchNanAmbient : List (String × Reading) :=
  [("supply", .num 44), ("ambient", .nan)]

/-- Snapshot with an active ambient lockout, no manual overrides, active
demand, and a supply temperature above the On threshold. -/
def exTickLockout : TickParams :=
  { now := 1000
    pumpOverride := none
    condenserOverride := none
    demand := true
    criticalFault := false
    supplyTemp := some 60
    setpoint := 45
    differential := 3
    ambientLockoutActive := true }

/-- State with an AHU call flagged active whose last call timestamp has
long expired. -/
def exCalling : SystemState :=
  { exInit with is_ahu_calling := true, last_ahu_call_time := 0 }

/-- State after submitting a single valid "supply" reading to `exInit`
(a successful update carrying no ambient entry). -/
def exAfterSupply : SystemState :=
  (((update_temperatures exCfg exInit 100
      [("supply", .num 44)]).toOption.map Prod.fst).getD exInit)

/-! ## General lemmas about the embedding -/

/-- The ambient-lockout evaluation touches only the lockout flag and its
two debounce timestamps; the critical-sensor fault is untouched. -/
theorem update_lockout_fault (deadband debounce : ℚ) (s : SystemState)
    (now : ℚ) :
    (update_ambient_lockout_status deadband debounce s now).critical_sensor_fault
      = s.critical_sensor_fault := rfl

/-- The ambient-lockout evaluation leaves the validity map untouched. -/
theorem update_lockout_valid (deadband debounce : ℚ) (s : SystemState)
    (now : ℚ) :
    (update_ambient_lockout_status deadband debounce s now).sensor_readings_valid
      = s.sensor_readings_valid := rfl

/-- The `ambient_temp_updated` flag computed by the batch loop is true
exactly when some batch entry is a valid "ambient" reading
(state.py:341-344). -/
theorem batchFold_snd (batch : List (String × Reading)) :
    ∀ (s : SystemState) (amb : Bool),
      (batchFold s amb batch).2
        = (amb || batch.any (fun kv => decide (kv.1 = "ambient") && kv.2.isNum)) := by
  induction batch with
  | nil => intro s amb; simp [batchFold]
  | cons kv rest ih =>
      intro s amb
      simp only [batchFold, batchFoldStep, ih, List.any_cons]
      cases amb <;> simp [Bool.or_assoc]

/-- The guarded fault reassignment at state.py:362-364 always leaves the
flag equal to the freshly computed value. -/
theorem fault_assign (s : SystemState) (nf : Bool) :
    (if s.critical_sensor_fault ≠ nf then
        { s with critical_sensor_fault := nf } else s).critical_sensor_fault
      = nf := by
  by_cases h : s.critical_sensor_fault ≠ nf
  · simp [h]
  · simp only [if_neg h]
    exact not_ne_iff.mp h

/-- The guarded fault reassignment never touches the validity map. -/
theorem fault_assign_valid (s : SystemState) (nf : Bool) :
    (if s.critical_sensor_fault ≠ nf then
        { s with critical_sensor_fault := nf } else s).sensor_readings_valid
      = s.sensor_readings_valid := by
  by_cases h : s.critical_sensor_fault ≠ nf <;> simp [h]

/-- After the guarded reassignment, the comparison in the re-evaluation
guard at state.py:368 is always false. -/
theorem fault_assign_decide (s : SystemState) (nf : Bool) :
    decide ((if s.critical_sensor_fault ≠ nf then
        { s with critical_sensor_fault := nf } else s).critical_sensor_fault
          ≠ nf) = false := by
  by_cases hx : s.critical_sensor_fault = nf <;> simp [hx]

/-- One engine tick records the tick's `now` into `condenser_last_off_time`
exactly on a commanded On-to-Off condenser transition (state.py:471-474),
and keeps the previous value otherwise. -/
theorem engineTick_lastOff (minOff : ℚ) (p : TickParams) (c : CtrlState) :
    (engineTick minOff p c).lastOff =
      if c.condCached && !(engineTick minOff p c).condCached then p.now
      else c.lastOff := rfl

/-- Condenser Off-to-On in auto mode passes the minimum-off gate
(controller.py:200-209): if the cached state is Off, there is no manual
condenser override, and the tick commands On, then the tick's `now` is at
least `minOff` past the cached last-off timestamp. -/
theorem cond_on_requires_minoff (minOff : ℚ) (p : TickParams)
    (c : CtrlState) (hov : p.condenserOverride = none)
    (hc : c.condCached = false)
    (hon : (engineTick minOff p c).condCached = true) :
    p.now - c.lastOff ≥ minOff := by
  have h : condenserDecision minOff p (pumpDecision p) c.condCached c.lastOff
      = true := hon
  rw [hc] at h
  unfold condenserDecision at h
  rw [hov] at h
  cases hpd : pumpDecision p <;> rw [hpd] at h
  · simp at h
  · simp only [Bool.not_true, Bool.false_eq_true, if_false] at h
    cases hft : p.criticalFault <;> rw [hft] at h
    · cases hsup : p.supplyTemp with
      | none => rw [hsup] at h; simp at h
      | some t =>
          rw [hsup] at h
          simp only [Bool.false_eq_true, if_false] at h
          by_cases h1 : t ≥ p.setpoint + p.differential
          · rw [if_pos h1] at h
            by_cases h2 : p.now - c.lastOff ≥ minOff
            · exact h2
            · rw [if_neg h2] at h
              exact absurd h (by simp)
          · rw [if_neg h1] at h
            exact absurd h (by simp)
    · simp at h

/-- Between two consecutive On-to-Off condenser transitions the cached
last-off timestamp is unchanged. -/
theorem lastOff_stable (minOff : ℚ) (f : ℕ → TickParams) (c0 : CtrlState)
    (a : ℕ) :
    ∀ b : ℕ, a ≤ b →
      (∀ i, a ≤ i → i < b →
        ¬((engineRun minOff f c0 i).condCached = true ∧
          (engineRun minOff f c0 (i + 1)).condCached = false)) →
      (engineRun minOff f c0 b).lastOff = (engineRun minOff f c0 a).lastOff := by
  intro b
  induction b with
  | zero =>
      intro hab _
      cases Nat.le_zero.mp hab
      rfl
  | succ n ih =>
      intro hab hno
      rcases Nat.lt_or_ge a (n + 1) with hlt | hge
      · have han : a ≤ n := Nat.lt_succ_iff.mp hlt
        have hstep : (engineRun minOff f c0 (n + 1)).lastOff
            = (engineRun minOff f c0 n).lastOff := by
          show (engineTick minOff (f n) (engineRun minOff f c0 n)).lastOff = _
          rw [engineTick_lastOff]
          have hnt := hno n han (Nat.lt_succ_self n)
          cases hcn : (engineRun minOff f c0 n).condCached
          · simp [hcn]
          · cases hcn1 : (engineRun minOff f c0 (n + 1)).condCached
            · exact absurd ⟨hcn, hcn1⟩ hnt
            · have : (engineTick minOff (f n)
                  (engineRun minOff f c0 n)).condCached = true := hcn1
              simp [this]
        rw [hstep]
        exact ih han (fun i hai hin => hno i hai (Nat.lt_succ_of_lt hin))
      · have haeq : a = n + 1 := Nat.le_antisymm hab hge
        rw [haeq]

/-- At an On-to-Off transition step the cached last-off timestamp becomes
that step's `now`. -/
theorem lastOff_at_transition (minOff : ℚ) (f : ℕ → TickParams)
    (c0 : CtrlState) (j : ℕ)
    (htr : (engineRun minOff f c0 j).condCached = true ∧
      (engineRun minOff f c0 (j + 1)).condCached = false) :
    (engineRun minOff f c0 (j + 1)).lastOff = (f j).now := by
  show (engineTick minOff (f j) (engineRun minOff f c0 j)).lastOff = _
  rw [engineTick_lastOff]
  have h2 : (engineTick minOff (f j)
      (engineRun minOff f c0 j)).condCached = false := htr.2
  simp [htr.1, h2]

/-- Invariant of the lockout run: whenever the "below" debounce timestamp
is set (non-null), it equals the observation time of the first evaluation
of an uninterrupted suffix of valid below-setpoint readings reaching the
present (state.py:415-421). -/
theorem lockout_below_inv (lockSet deadband debounce : ℚ)
    (nowF : ℕ → ℚ) (ambF : ℕ → Option ℚ) (L0 : LockSub)
    (hb0 : L0.belowSince = 0) :
    ∀ n, (lockoutRun lockSet deadband debounce nowF ambF L0 n).belowSince ≠ 0 →
      ∃ j, j < n ∧
        nowF j = (lockoutRun lockSet deadband debounce nowF ambF L0 n).belowSince ∧
        ∀ i, j ≤ i → i < n → ∃ t, ambF i = some t ∧ t < lockSet := by
  intro n
  induction n with
  | zero => intro h; exact absurd hb0 h
  | succ m ih =>
      intro h
      have hstep : lockoutRun lockSet deadband debounce nowF ambF L0 (m + 1)
          = lockoutStep lockSet deadband debounce
              (lockoutRun lockSet deadband debounce nowF ambF L0 m)
              (nowF m) (ambF m) := rfl
      cases hamb : ambF m with
      | none =>
          rw [hstep, hamb] at h
          simp [lockoutStep] at h
      | some t =>
          rw [hstep, hamb] at h ⊢
          simp only [lockoutStep] at h ⊢
          by_cases h1 : t < lockSet
          · rw [if_pos h1] at h ⊢
            by_cases h0 : (lockoutRun lockSet deadband debounce nowF ambF
                L0 m).belowSince = 0
            · refine ⟨m, Nat.lt_succ_self m, ?_, ?_⟩
              · simp [h0]
              · intro i hmi him
                have : i = m := by omega
                subst this
                exact ⟨t, hamb, h1⟩
            · obtain ⟨j, hj, hjeq, hall⟩ := ih h0
              refine ⟨j, Nat.lt_succ_of_lt hj, ?_, ?_⟩
              · simp [h0, hjeq]
              · intro i hji him
                by_cases hlt : i < m
                · exact hall i hji hlt
                · have : i = m := by omega
                  subst this
                  exact ⟨t, hamb, h1⟩
          · rw [if_neg h1] at h
            by_cases h2 : t > lockSet + deadband
            · rw [if_pos h2] at h
              simp at h
            · rw [if_neg h2] at h
              simp at h

/-- Invariant of the lockout run: whenever the "above" debounce timestamp
is set (non-null), it equals the observation time of the first evaluation
of an uninterrupted suffix of valid above-release readings reaching the
present (state.py:425-431). -/
theorem lockout_above_inv (lockSet deadband debounce : ℚ)
    (nowF : ℕ → ℚ) (ambF : ℕ → Option ℚ) (L0 : LockSub)
    (ha0 : L0.aboveSince = 0) :
    ∀ n, (lockoutRun lockSet deadband debounce nowF ambF L0 n).aboveSince ≠ 0 →
      ∃ j, j < n ∧
        nowF j = (lockoutRun lockSet deadband debounce nowF ambF L0 n).aboveSince ∧
        ∀ i, j ≤ i → i < n → ∃ t, ambF i = some t ∧ t > lockSet + deadband := by
  intro n
  induction n with
  | zero => intro h; exact absurd ha0 h
  | succ m ih =>
      intro h
      have hstep : lockoutRun lockSet deadband debounce nowF ambF L0 (m + 1)
          = lockoutStep lockSet deadband debounce
              (lockoutRun lockSet deadband debounce nowF ambF L0 m)
              (nowF m) (ambF m) := rfl
      cases hamb : ambF m with
      | none =>
          rw [hstep, hamb] at h
          simp [lockoutStep] at h
      | some t =>
          rw [hstep, hamb] at h ⊢
          simp only [lockoutStep] at h ⊢
          by_cases h1 : t < lockSet
          · rw [if_pos h1] at h
            simp at h
          · rw [if_neg h1] at h ⊢
            by_cases h2 : t > lockSet + deadband
            · rw [if_pos h2] at h ⊢
              by_cases h0 : (lockoutRun lockSet deadband debounce nowF ambF
                  L0 m).aboveSince = 0
              · refine ⟨m, Nat.lt_succ_self m, ?_, ?_⟩
                · simp [h0]
                · intro i hmi him
                  have : i = m := by omega
                  subst this
                  exact ⟨t, hamb, h2⟩
              · obtain ⟨j, hj, hjeq, hall⟩ := ih h0
                refine ⟨j, Nat.lt_succ_of_lt hj, ?_, ?_⟩
                · simp [h0, hjeq]
                · intro i hji him
                  by_cases hlt : i < m
                  · exact hall i hji hlt
                  · have : i = m := by omega
                    subst this
                    exact ⟨t, hamb, h2⟩
            · rw [if_neg h2] at h
              simp at h

/-! ## Claim theorems -/

/-- C1: evaluation of the decision engine at the claim's failing input.
The snapshot has no manual overrides and `ambientLockoutActive = true`,
yet the engine computes pump On (demand passes straight through,
controller.py:150-153) and condenser On (hysteresis on a high supply
temperature, controller.py:197-199): `control_loop` never reads the
`ambient_lockout_active` flag, so an active lockout does not force either
device Off, contrary to the claim. -/
theorem c1_lockout_ignored_by_engine :
    exTickLockout.ambientLockoutActive = true ∧
    exTickLockout.pumpOverride = none ∧
    exTickLockout.condenserOverride = none ∧
    pumpDecision exTickLockout = true ∧
    condenserDecision 120 exTickLockout (pumpDecision exTickLockout) true 0
      = true := by
  decide

/-- C2: over any run of engine ticks with no condenser manual override,
if the condenser is commanded On at step n (Off-to-On), and its most
recent commanded On-to-Off transition happened at step j (no transition
in between), then the On command comes at least `minimumOffTime` seconds
after that transition: the cached last-off timestamp records the
transition (state.py:471-474) and the auto-mode gate at
controller.py:202-209 refuses to turn On earlier, even if temperature
stays at or above the On threshold throughout. -/
theorem c2_min_off_gate (minOff : ℚ) (f : ℕ → TickParams)
    (c0 : CtrlState) (hov : ∀ i, (f i).condenserOverride = none)
    (j n : ℕ) (hjn : j < n)
    (hoff : (engineRun minOff f c0 j).condCached = true ∧
      (engineRun minOff f c0 (j + 1)).condCached = false)
    (hmid : ∀ i, j < i → i < n →
      ¬((engineRun minOff f c0 i).condCached = true ∧
        (engineRun minOff f c0 (i + 1)).condCached = false))
    (hon : (engineRun minOff f c0 n).condCached = false ∧
      (engineRun minOff f c0 (n + 1)).condCached = true) :
    (f n).now - (f j).now ≥ minOff := by
  have hstable : (engineRun minOff f c0 n).lastOff
      = (engineRun minOff f c0 (j + 1)).lastOff :=
    lastOff_stable minOff f c0 (j + 1) n hjn
      (fun i hji hin => hmid i (Nat.lt_of_succ_le hji) hin)
  have htr : (engineRun minOff f c0 (j + 1)).lastOff = (f j).now :=
    lastOff_at_transition minOff f c0 j hoff
  have hgate : (f n).now - (engineRun minOff f c0 n).lastOff ≥ minOff :=
    cond_on_requires_minoff minOff (f n) (engineRun minOff f c0 n)
      (hov n) hon.1 hon.2
  rw [hstable, htr] at hgate
  exact hgate

/-- C2 witness: the two-tick trace `exEngineTrace` drops the condenser
at time 0 and recommands it On at time 120 with `minOff = 120`. -/
theorem c2_min_off_gate_witness :
    (exEngineTrace 1).now - (exEngineTrace 0).now ≥ 120 := by
  have hrun1 : engineRun 120 exEngineTrace exCtrl0 1
      = { pumpCached := false, condCached := false, lastOff := 0 } := by
    decide
  have hrun2 : (engineRun 120 exEngineTrace exCtrl0 2).condCached = true := by
    show (engineTick 120 (exEngineTrace 1)
      (engineRun 120 exEngineTrace exCtrl0 1)).condCached = true
    rw [hrun1]
    norm_num [engineTick, pumpDecision, condenserDecision, exEngineTrace,
      exTickRaise]
  exact c2_min_off_gate 120 exEngineTrace exCtrl0
    (fun i => by by_cases h : i = 0 <;>
      simp [exEngineTrace, h, exTickDrop, exTickRaise])
    0 1 (by omega)
    ⟨by decide, by rw [hrun1]⟩
    (fun i h1 h2 => by omega)
    ⟨by rw [hrun1], hrun2⟩

/-- C3: condenser hysteresis in the auto branch (controller.py:184-212).
With no condenser override, no critical fault, a valid supply reading,
the pump computed On, and a positive differential: when the last
commanded state is On the evaluation computes Off exactly when the
reading is at or below the setpoint (hence stays On for any reading
strictly above it); when the last commanded state is Off it stays Off
for any reading strictly below setpoint plus differential. -/
theorem c3_condenser_hysteresis (minOff lastOff t : ℚ) (p : TickParams)
    (hov : p.condenserOverride = none) (hf : p.criticalFault = false)
    (hs : p.supplyTemp = some t) (hdiff : 0 < p.differential) :
    (condenserDecision minOff p true true lastOff = false ↔ t ≤ p.setpoint) ∧
    (t < p.setpoint + p.differential →
      condenserDecision minOff p true false lastOff = false) := by
  unfold condenserDecision
  simp only [hov, hf, hs, Bool.not_true, Bool.false_eq_true, if_false]
  constructor
  · by_cases h : t ≤ p.setpoint <;> simp [h]
  · intro ht
    have h1 : ¬ t ≥ p.setpoint + p.differential := by linarith
    simp [h1]

/-- C3 witness: hysteresis instantiated at the `exTickRaise` snapshot
(setpoint 45, differential 3, supply 50). -/
theorem c3_condenser_hysteresis_witness :
    (condenserDecision 120 exTickRaise true true 0 = false ↔
      (50 : ℚ) ≤ exTickRaise.setpoint) ∧
    ((50 : ℚ) < exTickRaise.setpoint + exTickRaise.differential →
      condenserDecision 120 exTickRaise true false 0 = false) :=
  c3_condenser_hysteresis 120 0 50 exTickRaise (by decide) (by decide)
    (by decide) (by decide)

/-- C4: in every tick, under every override combination and every cached
state, a pump decision of Off forces the condenser decision of the same
tick to Off (controller.py:168-170, the unconditional first gate). -/
theorem c4_pump_off_forces_condenser_off (minOff : ℚ) (p : TickParams)
    (c : CtrlState) (h : pumpDecision p = false) :
    (engineTick minOff p c).condCached = false := by
  simp [engineTick, condenserDecision, h]

/-- C4 witness: the gate at the no-demand snapshot with the condenser
previously commanded On. -/
theorem c4_pump_off_forces_condenser_off_witness :
    pumpDecision exTickDrop = false ∧
    (engineTick 120 exTickDrop exCtrl0).condCached = false :=
  ⟨by decide, c4_pump_off_forces_condenser_off 120 exTickDrop exCtrl0 (by decide)⟩

/-- C6: the demand tracker (state.py:309-333).  Writing `signaled` for
the condition `(now - lastCallAt < callTimeout) or coolingOverride = on`:
(a) on a signaled true-to-false transition the post-purge end is set to
`now + postPurgeDuration` and the call flag cleared; (b) the returned
pump demand always equals `ahuCallActive or (now < pumpPostPurgeEndAt)`
over the updated fields; (c) while signaled, the demand is true; (d) once
unsignaled with the flag already clear, the state is unchanged and the
demand is exactly `now < pumpPostPurgeEndAt` — so a call that arrives
and then ceases keeps demand true through the call and for exactly the
purge duration past the evaluation that observes the cessation. -/
theorem c6_demand_tracker (callTimeout purgeDur : ℚ) (s : SystemState)
    (now : ℚ) :
    ((s.is_ahu_calling = true →
      (decide (now - s.last_ahu_call_time < callTimeout)
        || decide (s.manual_cooling_override = some .on)) = false →
      (check_for_call_timeout callTimeout purgeDur s now).1.pump_post_purge_end_time
          = now + purgeDur ∧
        (check_for_call_timeout callTimeout purgeDur s now).1.is_ahu_calling = false) ∧
     ((check_for_call_timeout callTimeout purgeDur s now).2
        = ((check_for_call_timeout callTimeout purgeDur s now).1.is_ahu_calling
            || decide (now <
              (check_for_call_timeout callTimeout purgeDur s now).1.pump_post_purge_end_time))) ∧
     ((decide (now - s.last_ahu_call_time < callTimeout)
        || decide (s.manual_cooling_override = some .on)) = true →
      (check_for_call_timeout callTimeout purgeDur s now).2 = true) ∧
     (s.is_ahu_calling = false →
      (decide (now - s.last_ahu_call_time < callTimeout)
        || decide (s.manual_cooling_override = some .on)) = false →
      (check_for_call_timeout callTimeout purgeDur s now).1 = s ∧
        (check_for_call_timeout callTimeout purgeDur s now).2
          = decide (now < s.pump_post_purge_end_time))) := by
  unfold check_for_call_timeout
  cases hc : s.is_ahu_calling <;>
    cases hs : (decide (now - s.last_ahu_call_time < callTimeout)
      || decide (s.manual_cooling_override = some .on)) <;>
    simp [hc, hs]

/-- C6 witness: the tracker at `exCalling` observed at time 1000 (call
long expired): purge end set to 1060 and the call flag cleared. -/
theorem c6_demand_tracker_witness :
    (check_for_call_timeout 300 60 exCalling 1000).1.pump_post_purge_end_time
        = 1000 + 60 ∧
      (check_for_call_timeout 300 60 exCalling 1000).1.is_ahu_calling = false :=
  (c6_demand_tracker 300 60 exCalling 1000).1 (by decide)
    (by norm_num [exCalling, exInit, initState, exCfg] <;> decide)

/-- C8: evaluation of the sensor batch update at the claim's failing
input.  With an empty critical-sensor set and a batch carrying no valid
"ambient" entry, `update_temperatures` raises UnboundLocalError:
state.py:355-356 skips the assignment of `new_fault_state`, yet the guard
at state.py:368 still evaluates it because the `ambient_temp_updated`
short-circuit fails.  The sensing loop (sensors.py:101) calls the method
with no handler, so the exception escapes the sensing boundary, contrary
to the claim. -/
theorem c8_update_raises_on_empty_critical_set :
    (update_temperatures exCfgEmptyCritical exInit 100
        [("supply", .num 50)]).toOption = none := by
  decide

/-- C9 counterexample: the condenser (chiller) override is not
session-only.  Setting it from auto to "on" writes an overrides file
containing the chiller override (state.py:276-280 calls
`save_overrides`, which serializes all three overrides,
state.py:198-202), and loading that file restores the chiller override
(state.py:182). -/
theorem c9_condenser_override_persisted :
    (set_override exInit "chiller" "on").2 =
      some { manual_pump_override := none
             manual_chiller_override := some .on
             manual_cooling_override := none } ∧
    (load_overrides
        { manual_pump_override := none
          manual_chiller_override := some .on
          manual_cooling_override := none } exInit).manual_chiller_override
      = some .on := by
  decide

/-- C9 amended: all three overrides — pump, coolingCall, and the
condenser (chiller) — are persisted: `save_overrides` writes all three
fields, `load_overrides` restores all three, and for every valid device
any effective override change synchronously writes the overrides file
and records the parsed value (state.py:261-280, 176-206). -/
theorem c9_all_overrides_persisted :
    (∀ s : SystemState,
      (save_overrides s).manual_chiller_override = s.manual_chiller_override ∧
      (save_overrides s).manual_pump_override = s.manual_pump_override ∧
      (save_overrides s).manual_cooling_override = s.manual_cooling_override) ∧
    (∀ (f : OverridesFile) (s : SystemState),
      (load_overrides f s).manual_chiller_override = f.manual_chiller_override ∧
      (load_overrides f s).manual_pump_override = f.manual_pump_override ∧
      (load_overrides f s).manual_cooling_override = f.manual_cooling_override) ∧
    (∀ (s : SystemState) (device v : String),
      device ∈ ["pump", "chiller", "cooling"] →
      parse_override_value v ≠ get_override s device →
      (set_override s device v).2
          = some (save_overrides (set_override s device v).1) ∧
        get_override (set_override s device v).1 device
          = parse_override_value v) := by
  refine ⟨fun s => ⟨rfl, rfl, rfl⟩, fun f s => ⟨rfl, rfl, rfl⟩,
    fun s device v hdev h => ?_⟩
  simp only [List.mem_cons, List.not_mem_nil, or_false] at hdev
  rcases hdev with rfl | rfl | rfl <;>
    · unfold get_override at h
      unfold set_override get_override
      simp at h ⊢
      simp [Ne.symm h]

/-- C9 amended witness: switching the pump, chiller, and cooling
overrides of the fresh state each writes the overrides file and records
the parsed value. -/
theorem c9_all_overrides_persisted_witness :
    ((set_override exInit "pump" "on").2
        = some (save_overrides (set_override exInit "pump" "on").1) ∧
      get_override (set_override exInit "pump" "on").1 "pump"
        = parse_override_value "on") ∧
    ((set_override exInit "chiller" "on").2
        = some (save_overrides (set_override exInit "chiller" "on").1) ∧
      get_override (set_override exInit "chiller" "on").1 "chiller"
        = parse_override_value "on") ∧
    ((set_override exInit "cooling" "off").2
        = some (save_overrides (set_override exInit "cooling" "off").1) ∧
      get_override (set_override exInit "cooling" "off").1 "cooling"
        = parse_override_value "off") :=
  ⟨c9_all_overrides_persisted.2.2 exInit "pump" "on" (by decide) (by decide),
   c9_all_overrides_persisted.2.2 exInit "chiller" "on" (by decide) (by decide),
   c9_all_overrides_persisted.2.2 exInit "cooling" "off" (by decide) (by decide)⟩

/-- C7 counterexample: a batch whose "ambient" entry is invalid (NaN)
and whose application flips `criticalSensorFault` from true to false
does NOT re-run the ambient-lockout evaluation.  The flag at
state.py:343 requires a *valid* ambient reading, and the guard at
state.py:368 compares the already-reassigned fault flag with
`new_fault_state`, which are equal by that point — so neither of the
claim's two triggering conditions actually triggers. -/
theorem c7_invalid_ambient_and_fault_change_do_not_rerun :
    (update_temperatures exCfg exInit 100 exBatchNanAmbient).toOption.map
        Prod.snd = some false ∧
      exInit.critical_sensor_fault = true ∧
      (update_temperatures exCfg exInit 100 exBatchNanAmbient).toOption.map
          (fun r => r.1.critical_sensor_fault) = some false ∧
      exBatchNanAmbient.any (fun kv => decide (kv.1 = "ambient")) = true := by
  decide

/-- C7 amended: the ambient-lockout evaluation is re-run synchronously as
part of a (non-raising) sensor batch update exactly when the batch
contains an "ambient" entry with a valid (numeric, non-NaN) value;
presence of an invalid ambient entry, or a change of the critical fault
flag alone, does not trigger it. -/
theorem c7_lockout_rerun_iff_valid_ambient (cfg : Config)
    (s : SystemState) (now : ℚ) (batch : List (String × Reading))
    (s2 : SystemState) (ran : Bool)
    (h : (update_temperatures cfg s now batch).toOption = some (s2, ran)) :
    ran = batch.any (fun kv => decide (kv.1 = "ambient") && kv.2.isNum) := by
  have hb := batchFold_snd batch s false
  simp only [Bool.false_or] at hb
  unfold update_temperatures at h
  by_cases hcrit : cfg.critical_sensor_keys = []
  · rw [if_pos hcrit] at h
    cases hamb : (batchFold s false batch).2 <;> rw [hamb] at h
    · simp [Except.toOption] at h
    · simp only [if_true, Except.toOption, Option.some.injEq,
        Prod.mk.injEq] at h
      rw [← h.2, ← hb, hamb]
  · rw [if_neg hcrit] at h
    simp only [fault_assign_decide, Bool.or_false] at h
    cases hamb : (batchFold s false batch).2 <;> rw [hamb] at h
    · simp only [Bool.false_eq_true, if_false, Except.toOption,
        Option.some.injEq, Prod.mk.injEq] at h
      rw [← h.2, ← hb, hamb]
    · simp only [if_true, Except.toOption, Option.some.injEq,
        Prod.mk.injEq] at h
      rw [← h.2, ← hb, hamb]

/-- C7 amended witness: a batch with only a "supply" entry completes
without re-running the lockout evaluation. -/
theorem c7_lockout_rerun_iff_valid_ambient_witness :
    (false : Bool)
      = ([("supply", Reading.num 44)]).any
          (fun kv => decide (kv.1 = "ambient") && kv.2.isNum) :=
  c7_lockout_rerun_iff_valid_ambient exCfg exInit 100
    [("supply", .num 44)] exAfterSupply false (by decide)

/-- C5 counterexample: a Locked-to-Unlocked transition with no debounce.
Over the trace `exLockNow`/`exLockAmb` (lockout setpoint 50, deadband 5,
debounce 60), the lockout engages at step 2 after 60 s below setpoint,
then at step 3 a single unavailable ambient reading drops it immediately
(state.py:396-399) although no reading above the release threshold 55
ever occurred — refuting the claim that every transition requires its
triggering temperature condition to have held for debounceSeconds. -/
theorem c5_lockout_drops_without_debounce :
    (lockoutRun 50 5 60 exLockNow exLockAmb
        { active := false, belowSince := 0, aboveSince := 0 } 2).active = true ∧
      (lockoutRun 50 5 60 exLockNow exLockAmb
        { active := false, belowSince := 0, aboveSince := 0 } 3).active = false ∧
      (∀ i, i < 3 → (exLockAmb i).getD 0 ≤ 55) := by
  have h1 : lockoutRun 50 5 60 exLockNow exLockAmb
      { active := false, belowSince := 0, aboveSince := 0 } 1
        = { active := false, belowSince := 10, aboveSince := 0 } := by
    show lockoutStep 50 5 60 { active := false, belowSince := 0, aboveSince := 0 }
      (exLockNow 0) (exLockAmb 0) = _
    norm_num [lockoutStep, exLockNow, exLockAmb]
  have h2 : lockoutRun 50 5 60 exLockNow exLockAmb
      { active := false, belowSince := 0, aboveSince := 0 } 2
        = { active := true, belowSince := 10, aboveSince := 0 } := by
    show lockoutStep 50 5 60 (lockoutRun 50 5 60 exLockNow exLockAmb
      { active := false, belowSince := 0, aboveSince := 0 } 1)
      (exLockNow 1) (exLockAmb 1) = _
    rw [h1]
    norm_num [lockoutStep, exLockNow, exLockAmb]
  have h3 : lockoutRun 50 5 60 exLockNow exLockAmb
      { active := false, belowSince := 0, aboveSince := 0 } 3
        = { active := false, belowSince := 0, aboveSince := 0 } := by
    show lockoutStep 50 5 60 (lockoutRun 50 5 60 exLockNow exLockAmb
      { active := false, belowSince := 0, aboveSince := 0 } 2)
      (exLockNow 2) (exLockAmb 2) = _
    rw [h2]
    norm_num [lockoutStep, exLockNow, exLockAmb]
  exact ⟨by rw [h2], by rw [h3], by decide⟩

/-- C5 amended: over any sequence of lockout evaluations started with
null debounce timers and a positive debounce duration: (a) an
Unlocked-to-Locked transition at step n requires an uninterrupted suffix
of evaluations j..n with valid readings strictly below the lockout
setpoint spanning at least debounceSeconds; (b) a Locked-to-Unlocked
transition requires either an unavailable ambient reading at step n
(which forces Unlocked immediately) or such a suffix of readings
strictly above setpoint plus deadband; (c) an evaluation with a valid
reading inside the deadband resets both timers and keeps the flag;
(d) an evaluation with an unavailable reading resets both timers and
clears the flag. -/
theorem c5_lockout_debounce (lockSet deadband debounce : ℚ)
    (nowF : ℕ → ℚ) (ambF : ℕ → Option ℚ) (L0 : LockSub)
    (hdeb : 0 < debounce) (hb0 : L0.belowSince = 0)
    (ha0 : L0.aboveSince = 0) (n : ℕ) :
    ((lockoutRun lockSet deadband debounce nowF ambF L0 n).active = false →
      (lockoutRun lockSet deadband debounce nowF ambF L0 (n + 1)).active = true →
      ∃ j, j ≤ n ∧ nowF n - nowF j ≥ debounce ∧
        ∀ i, j ≤ i → i ≤ n → ∃ t, ambF i = some t ∧ t < lockSet) ∧
    ((lockoutRun lockSet deadband debounce nowF ambF L0 n).active = true →
      (lockoutRun lockSet deadband debounce nowF ambF L0 (n + 1)).active = false →
      ambF n = none ∨
        ∃ j, j ≤ n ∧ nowF n - nowF j ≥ debounce ∧
          ∀ i, j ≤ i → i ≤ n → ∃ t, ambF i = some t ∧ t > lockSet + deadband) ∧
    (∀ t, ambF n = some t → lockSet ≤ t → t ≤ lockSet + deadband →
      lockoutRun lockSet deadband debounce nowF ambF L0 (n + 1)
        = { active := (lockoutRun lockSet deadband debounce nowF ambF L0 n).active
            belowSince := 0
            aboveSince := 0 }) ∧
    (ambF n = none →
      lockoutRun lockSet deadband debounce nowF ambF L0 (n + 1)
        = { active := false, belowSince := 0, aboveSince := 0 }) := by
  have hstep : lockoutRun lockSet deadband debounce nowF ambF L0 (n + 1)
      = lockoutStep lockSet deadband debounce
          (lockoutRun lockSet deadband debounce nowF ambF L0 n)
          (nowF n) (ambF n) := rfl
  refine ⟨?_, ?_, ?_, ?_⟩
  · intro hA hB
    rw [hstep] at hB
    cases hamb : ambF n with
    | none => rw [hamb] at hB; simp [lockoutStep] at hB
    | some t =>
        rw [hamb] at hB
        simp only [lockoutStep] at hB
        by_cases h1 : t < lockSet
        · rw [if_pos h1] at hB
          simp only at hB
          by_cases hd : nowF n -
              (if (lockoutRun lockSet deadband debounce nowF ambF
                L0 n).belowSince = 0 then nowF n
               else (lockoutRun lockSet deadband debounce nowF ambF
                L0 n).belowSince) ≥ debounce
          · by_cases h0 : (lockoutRun lockSet deadband debounce nowF ambF
                L0 n).belowSince = 0
            · rw [if_pos h0] at hd
              simp only [sub_self] at hd
              linarith
            · rw [if_neg h0] at hd
              obtain ⟨j, hj, hjeq, hall⟩ :=
                lockout_below_inv lockSet deadband debounce nowF ambF L0
                  hb0 n h0
              refine ⟨j, Nat.le_of_lt hj, by rw [hjeq]; exact hd, ?_⟩
              intro i hji hin
              by_cases hlt : i < n
              · exact hall i hji hlt
              · have : i = n := by omega
                subst this
                exact ⟨t, hamb, h1⟩
          · rw [if_neg hd] at hB
            exact absurd (hA ▸ hB) (by simp)
        · rw [if_neg h1] at hB
          by_cases h2 : t > lockSet + deadband
          · rw [if_pos h2] at hB
            simp only at hB
            by_cases hd : nowF n -
                (if (lockoutRun lockSet deadband debounce nowF ambF
                  L0 n).aboveSince = 0 then nowF n
                 else (lockoutRun lockSet deadband debounce nowF ambF
                  L0 n).aboveSince) ≥ debounce
            · rw [if_pos hd] at hB
              exact absurd hB (by simp)
            · rw [if_neg hd] at hB
              exact absurd (hA ▸ hB) (by simp)
          · rw [if_neg h2] at hB
            exact absurd (hA ▸ hB) (by simp)
  · intro hA hB
    rw [hstep] at hB
    cases hamb : ambF n with
    | none => exact Or.inl rfl
    | some t =>
        refine Or.inr ?_
        rw [hamb] at hB
        simp only [lockoutStep] at hB
        by_cases h1 : t < lockSet
        · rw [if_pos h1] at hB
          simp only at hB
          by_cases hd : nowF n -
              (if (lockoutRun lockSet deadband debounce nowF ambF
                L0 n).belowSince = 0 then nowF n
               else (lockoutRun lockSet deadband debounce nowF ambF
                L0 n).belowSince) ≥ debounce
          · rw [if_pos hd] at hB
            exact absurd hB (by simp)
          · rw [if_neg hd] at hB
            exact absurd (hA ▸ hB) (by simp)
        · rw [if_neg h1] at hB
          by_cases h2 : t > lockSet + deadband
          · rw [if_pos h2] at hB
            simp only at hB
            by_cases h0 : (lockoutRun lockSet deadband debounce nowF ambF
                L0 n).aboveSince = 0
            · rw [if_pos h0] at hB
              by_cases hd : nowF n - nowF n ≥ debounce
              · simp only [sub_self] at hd
                linarith
              · rw [if_neg hd] at hB
                exact absurd (hA ▸ hB) (by simp)
            · rw [if_neg h0] at hB
              by_cases hd : nowF n - (lockoutRun lockSet deadband debounce
                  nowF ambF L0 n).aboveSince ≥ debounce
              · obtain ⟨j, hj, hjeq, hall⟩ :=
                  lockout_above_inv lockSet deadband debounce nowF ambF L0
                    ha0 n h0
                refine ⟨j, Nat.le_of_lt hj, by rw [hjeq]; exact hd, ?_⟩
                intro i hji hin
                by_cases hlt : i < n
                · exact hall i hji hlt
                · have : i = n := by omega
                  subst this
                  exact ⟨t, hamb, h2⟩
              · rw [if_neg hd] at hB
                exact absurd (hA ▸ hB) (by simp)
          · rw [if_neg h2] at hB
            exact absurd (hA ▸ hB) (by simp)
  · intro t hamb hle hge
    rw [hstep, hamb]
    simp only [lockoutStep]
    rw [if_neg (not_lt.mpr hle), if_neg (not_lt.mpr hge)]
  · intro hamb
    rw [hstep, hamb]
    rfl

/-- C5 amended witness: the unavailable reading at step 2 of the
`exLockAmb` trace forces the sub-state to Unlocked with both timers
null. -/
theorem c5_lockout_debounce_witness :
    lockoutRun 50 5 60 exLockNow exLockAmb
        { active := false, belowSince := 0, aboveSince := 0 } (2 + 1)
      = { active := false, belowSince := 0, aboveSince := 0 } :=
  (c5_lockout_debounce 50 5 60 exLockNow exLockAmb
      { active := false, belowSince := 0, aboveSince := 0 }
      (by norm_num) rfl rfl 2).2.2.2 (by decide)

/-- C10 counterexample: with two critical sensors, the fault set at
construction clears on a batch that does NOT carry a valid reading for
every critical key.  Validity flags persist across batches
(state.py:346-350), so after "supply" was validated by an earlier batch,
a later batch carrying only "outlet" clears the fault although it holds
no "supply" entry — contradicting the claim that the fault first becomes
false only after a batch in which every critical key carries a valid
reading. -/
theorem c10_fault_clears_across_batches :
    exInitTwo.critical_sensor_fault = true ∧
      exAfterSupplyOnly.critical_sensor_fault = true ∧
      (update_temperatures exCfgTwoCritical exAfterSupplyOnly 20
          [("outlet", Reading.num 46)]).toOption.map
            (fun r => r.1.critical_sensor_fault) = some false ∧
      ([("outlet", Reading.num 46)] : List (String × Reading)).any
          (fun kv => decide (kv.1 = "supply")) = false := by
  decide

/-- C10 amended: (a) immediately after construction, if some critical
key is among the configured sensors the fault is true (state.py:82-83);
(b) after any non-raising batch update under a non-empty critical set,
the fault is false exactly when every critical key's stored validity
flag is true — flags persist across batches, so the clearing batch need
only revalidate the last missing critical key (state.py:355-365);
(c) while the fault is true the condenser auto decision is Off, so the
condenser cannot run in auto mode before all critical keys have been
validly read (controller.py:178-180). -/
theorem c10_fault_seeding_and_clearing :
    (∀ (cfg : Config) (sp d ls : ℚ) (ov : OverridesFile) (t0 : ℚ),
      cfg.critical_sensor_keys.any (fun k => k ∈ cfg.sensor_ids_keys) = true →
      (initState cfg sp d ls ov t0).critical_sensor_fault = true) ∧
    (∀ (cfg : Config) (s : SystemState) (now : ℚ)
        (batch : List (String × Reading)) (s2 : SystemState) (ran : Bool),
      cfg.critical_sensor_keys ≠ [] →
      (update_temperatures cfg s now batch).toOption = some (s2, ran) →
      (s2.critical_sensor_fault = false ↔
        ∀ k ∈ cfg.critical_sensor_keys,
          lookupB s2.sensor_readings_valid k = true)) ∧
    (∀ (minOff : ℚ) (p : TickParams) (pumpOn cached : Bool) (lastOff : ℚ),
      p.condenserOverride = none → p.criticalFault = true →
      condenserDecision minOff p pumpOn cached lastOff = false) := by
  refine ⟨?_, ?_, ?_⟩
  · intro cfg sp d ls ov t0 hcrit
    unfold initState
    by_cases hids : cfg.sensor_ids_keys = [] <;> simp [hids, hcrit]
  · intro cfg s now batch s2 ran hcrit h
    unfold update_temperatures at h
    rw [if_neg hcrit] at h
    simp only [fault_assign_decide, Bool.or_false] at h
    cases hamb : (batchFold s false batch).2 <;> rw [hamb] at h
    · simp only [Bool.false_eq_true, if_false, Except.toOption,
        Option.some.injEq, Prod.mk.injEq] at h
      rw [← h.1, fault_assign, fault_assign_valid]
      simp [List.all_eq_true]
    · simp only [if_true, Except.toOption, Option.some.injEq,
        Prod.mk.injEq] at h
      rw [← h.1, update_lockout_fault, update_lockout_valid,
        fault_assign, fault_assign_valid]
      simp [List.all_eq_true]
  · intro minOff p pumpOn cached lastOff hov hf
    cases pumpOn
    · rfl
    · unfold condenserDecision
      simp [hov, hf]

/-- C10 amended witness: the seeding conjunct at the two-critical-sensor
configuration. -/
theorem c10_fault_seeding_and_clearing_witness :
    (initState exCfgTwoCritical 45 3 50
        { manual_pump_override := none
          manual_chiller_override := none
          manual_cooling_override := none } 0).critical_sensor_fault = true :=
  c10_fault_seeding_and_clearing.1 exCfgTwoCritical 45 3 50
    { manual_pump_override := none
      manual_chiller_override := none
      manual_cooling_override := none } 0 (by decide)

end Chiller
